import Mathlib

/-! Shallow embedding development.
Verification development for the DocLearn backend.

This file gives a shallow embedding, in Lean 4, of the conversation
orchestration core of the repository: the session progress state machine
(`app/services/session_service.py`), the chat turn flow
(`app/services/chat_service.py`), the orchestration graph
(`app/graphs/generation_graph.py`), the conversation memory manager
(`app/services/memory.py`), and the response-size heuristics
(`app/core/llm_factory.py`).

Conventions of the embedding:
- Python `int` values become `Int`; wall-clock timestamps (`datetime.utcnow()`)
  become an explicit `now : Nat` argument threaded to each mutating call, so
  that distinct calls may observe distinct clock values.
- The JSON `lesson_plan` column is modelled by `Option LessonPlan`; the code
  only ever reads `lesson_plan["days"]`, each day's `"topics"` list, and each
  list's length, so topics are kept as opaque strings.
- Database session lookup is abstracted away: each service operation acts on
  the `LearningSession` record it would have fetched, and the claims below are
  all about sessions that exist.
- Python exceptions become `Except` results; a raised exception carries no
  mutated state unless the mutation had already been committed.
- `float` percentages are modelled by `ℚ`, with `round(x, 1)` modelled as
  exact round-half-to-even to one decimal place (Python's `round` on the exact
  value; binary floating point representation error is abstracted away).
-/

/-- Session status enum, from `app/db/models.py` (`SessionStatus`). -/
inductive SessionStatus where
  | planning
  | ready
  | in_progress
  | completed
  | failed
deriving DecidableEq, Repr

/-- One day of a generated lesson plan. The service code reads a day's
`"topics"` list only through its length, so each topic entry is opaque. -/
structure LessonDay where
  title : String
  objectives : List String
  topics : List String
deriving DecidableEq, Repr

/-- A generated lesson plan: the `"days"` array of the stored JSON. -/
structure LessonPlan where
  days : List LessonDay
deriving DecidableEq, Repr

/-- The live-state portion of a `LearningSession` row
(`app/db/models.py`), restricted to the fields the progress state machine
reads or writes. -/
structure LearningSession where
  status : SessionStatus
  total_days : Int
  current_day : Int
  current_topic_index : Int
  lesson_plan : Option LessonPlan
  updated_at : Nat
  completed_at : Option Nat
deriving DecidableEq, Repr

/-- First half of `SessionService.update_progress`: when a `current_day`
argument is given, store `min(current_day, session.total_days)`. -/
def applyDayUpdate (cd? : Option Int) (s : LearningSession) : LearningSession :=
  match cd? with
  | some d => { s with current_day := min d s.total_days }
  | none => s

/-- Second half of the argument handling of `SessionService.update_progress`:
when a `current_topic_index` argument is given, store it unchanged. -/
def applyTopicUpdate (ci? : Option Int) (s : LearningSession) : LearningSession :=
  match ci? with
  | some i => { s with current_topic_index := i }
  | none => s

/-- The completion re-check at the end of `SessionService.update_progress`
(lines 245-254): if `current_day >= total_days` and the final day of the plan
exists and `current_topic_index >= len(topics) - 1`, force status COMPLETED
and stamp `completed_at` with the current time.  A missing plan contributes
`days = []` (`lesson_plan or {}` followed by `.get("days", [])`). -/
def checkCompletion (now : Nat) (s : LearningSession) : LearningSession :=
  if s.current_day ≥ s.total_days then
    match s.lesson_plan with
    | some plan =>
      match plan.days.getLast? with
      | some last_day =>
        if s.current_topic_index ≥ (last_day.topics.length : Int) - 1 then
          { s with status := SessionStatus.completed, completed_at := some now }
        else s
      | none => s
    | none => s
  else s

/-- Embedding of `SessionService.update_progress` (`app/services/session_service.py`,
lines 215-264): apply the optional day update (clamped above by
`total_days`), the optional topic-index update, bump `updated_at`, then
re-derive completion. -/
def update_progress (now : Nat) (cd? ci? : Option Int) (s : LearningSession) :
    LearningSession :=
  checkCompletion now { applyTopicUpdate ci? (applyDayUpdate cd? s) with updated_at := now }

/-- Embedding of `SessionService.advance_day` (lines 266-287): when
`current_day < total_days`, delegate to `update_progress` with
`current_day + 1` and topic index `0`; otherwise return the session
untouched. -/
def advance_day (now : Nat) (s : LearningSession) : LearningSession :=
  if s.current_day < s.total_days then
    update_progress now (some (s.current_day + 1)) (some 0) s
  else s

/-- Embedding of `SessionService.advance_topic` (lines 289-306): delegate to
`update_progress` with `current_topic_index + 1` and no day argument. -/
def advance_topic (now : Nat) (s : LearningSession) : LearningSession :=
  update_progress now none (some (s.current_topic_index + 1)) s

/-- Embedding of `SessionService.set_status` (lines 308-342): store the new status, bump
`updated_at`, and when the new status is COMPLETED also stamp
`completed_at` with the current time. -/
def set_status (now : Nat) (status : SessionStatus) (s : LearningSession) :
    LearningSession :=
  let s' := { s with status := status, updated_at := now }
  if status = SessionStatus.completed then
    { s' with completed_at := some now }
  else s'

/-- The `goto_day` route handler (`app/api/routes/sessions.py`, lines
266-291): reject the request when `day < 1` or `day > total_days`, otherwise
delegate to `update_progress` with the given day and topic index `0`. -/
def goto_day (now : Nat) (day : Int) (s : LearningSession) :
    Except String LearningSession :=
  if day < 1 ∨ day > s.total_days then
    Except.error "Day must be between 1 and total_days"
  else
    Except.ok (update_progress now (some day) (some 0) s)

/-- Round-half-to-even of a rational to one decimal place, modelling Python's
`round(x, 1)` applied to the exact value of `x`. -/
def roundTo1 (q : ℚ) : ℚ :=
  let x := q * 10
  let f := Int.floor x
  let r := x - f
  let n : Int :=
    if r < 1 / 2 then f
    else if r > 1 / 2 then f + 1
    else if f % 2 = 0 then f else f + 1
  (n : ℚ) / 10

/-- The accumulation loop of `SessionService.calculate_progress_percentage`
(lines 400-410): walk the days with 1-based `day_num`; a day strictly before
`current_day` contributes all its topics, the day equal to `current_day`
contributes `min(current_topic_index, topics_in_day)`, later days contribute
nothing. -/
def completedTopicsAux (cd ci : Int) (day_num : Int) : List LessonDay → Int
  | [] => 0
  | d :: rest =>
    let t : Int := d.topics.length
    (if day_num < cd then t else if day_num = cd then min ci t else 0)
      + completedTopicsAux cd ci (day_num + 1) rest

/-- Embedding of `SessionService.calculate_progress_percentage` (lines 378-412): 0.0 with
no plan, no days, or no topics; otherwise the completed-topic count over the
total topic count, as a percentage rounded to one decimal. -/
def calculate_progress_percentage (s : LearningSession) : ℚ :=
  match s.lesson_plan with
  | none => 0
  | some plan =>
    if plan.days = [] then 0
    else
      let total_topics : Int := (plan.days.map (fun d => (d.topics.length : Int))).sum
      if total_topics = 0 then 0
      else
        let completed_topics := completedTopicsAux s.current_day s.current_topic_index 1 plan.days
        roundTo1 (((completed_topics : ℚ) / (total_topics : ℚ)) * 100)

/-- Number of topics of the day `cd` points at (1-based), or 0 when the plan
has no such day.  Used to state the spec's `topics_in_current_day` bound and
the claim-side progress formula. -/
def topicsAtDay (days : List LessonDay) (cd : Int) : Int :=
  match days.get? (cd - 1).toNat with
  | some d => d.topics.length
  | none => 0

/-- The progress numerator exactly as the specification words it: all topics
of the days strictly before `current_day`, plus
`min(current_topic_index, topics in current day)`. -/
def specCompletedTopics (cd ci : Int) (days : List LessonDay) : Int :=
  ((days.take (cd - 1).toNat).map (fun d => (d.topics.length : Int))).sum
    + min ci (topicsAtDay days cd)

/-- Python-level errors surfaced by the chat flow: attribute lookup failure
on a missing method, and `ValueError` rejections. -/
inductive PyError where
  | attributeError (name : String)
  | valueError (msg : String)
deriving DecidableEq, Repr

/-- The methods defined on `SessionService`
(`app/services/session_service.py`, lines 20-412), in source order.  Python
attribute lookup on a `SessionService` instance succeeds exactly for these
names (plus inherited object machinery, none of which is named
`append_to_chat_history`). -/
def sessionServiceMethods : List String :=
  ["__init__", "create_session", "get_session", "get_session_or_raise",
   "get_user_sessions", "count_user_sessions", "update_lesson_plan",
   "update_progress", "advance_day", "advance_topic", "set_status",
   "delete_session", "calculate_progress_percentage"]

/-- Attribute lookup of `append_to_chat_history` on the `SessionService`
instance: `AttributeError` when no method of that name exists. -/
def append_to_chat_history_call : Except PyError Unit :=
  if sessionServiceMethods.contains "append_to_chat_history" then Except.ok ()
  else Except.error (PyError.attributeError "append_to_chat_history")

/-- The dictionary returned by the orchestration graph, restricted to the
keys `ChatService.send_message` reads.  `result.get("ai_response")` yields a
string that is falsy exactly when empty. -/
structure GraphResult where
  ai_response : String
  should_advance_topic : Bool
  is_day_complete : Bool
  is_course_complete : Bool
deriving DecidableEq, Repr

/-- The persistence tail of `ChatService.send_message`
(`app/services/chat_service.py`, lines 78-98), run after the graph returns:
append the turn to chat history when `ai_response` is truthy, then apply
topic advancement, day advancement, and course-completion status in order.
The history append resolves the attribute `append_to_chat_history` on
`SessionService`, so a truthy `ai_response` hits that lookup first. -/
def send_message_after_graph (now : Nat) (result : GraphResult)
    (s : LearningSession) : Except PyError LearningSession :=
  match (if result.ai_response ≠ "" then append_to_chat_history_call else Except.ok ()) with
  | Except.error e => Except.error e
  | Except.ok _ =>
    let s1 := if result.should_advance_topic then advance_topic now s else s
    let s2 := if result.is_day_complete && !result.is_course_complete then advance_day now s1 else s1
    let s3 := if result.is_course_complete then set_status now SessionStatus.completed s2 else s2
    Except.ok s3

/-- The persistence step of `ChatService.start_lesson` (lines 156-162): when
the graph produced a truthy welcome message, append it to chat history via
the same missing `SessionService.append_to_chat_history` attribute. -/
def start_lesson_persist (result : GraphResult) : Except PyError Unit :=
  if result.ai_response ≠ "" then append_to_chat_history_call else Except.ok ()

/-- The validation prefix of `ChatService.send_message` (lines 60-70) for a
session that exists: reject unless the status is READY or IN_PROGRESS, and
move a READY session to IN_PROGRESS before the graph is invoked. -/
def send_message_validate (now : Nat) (s : LearningSession) :
    Except PyError LearningSession :=
  if ¬(s.status = SessionStatus.ready ∨ s.status = SessionStatus.in_progress) then
    Except.error (PyError.valueError "Session is not ready for chat")
  else if s.status = SessionStatus.ready then
    Except.ok (set_status now SessionStatus.in_progress s)
  else
    Except.ok s

/-- Nodes of the generation graph (`app/graphs/generation_graph.py`),
together with the virtual END node of the workflow library. -/
inductive GNode where
  | plan_generator_node
  | tutor_node
  | endNode
deriving DecidableEq, Repr

/-- The slice of the graph state that drives routing: `should_plan` only
inspects `state.get("lesson_plan")`. -/
structure GraphState where
  lesson_plan : Option LessonPlan
deriving DecidableEq, Repr

/-- Embedding of `should_plan` (`app/graphs/generation_graph.py`, lines 18-33): route to
the plan generator when no lesson plan exists, else to the tutor. -/
def should_plan (st : GraphState) : String :=
  if st.lesson_plan = none then "plan_generator_node" else "tutor_node"

/-- The conditional-entry mapping passed to `set_conditional_entry_point` in
`create_generation_graph` (lines 85-91). -/
def entryMapping : List (String × GNode) :=
  [("plan_generator_node", GNode.plan_generator_node),
   ("tutor_node", GNode.tutor_node)]

/-- The unconditional edges added in `create_generation_graph`:
`plan_generator_node → tutor_node` and `tutor_node → END`. -/
def graphEdge : GNode → GNode
  | GNode.plan_generator_node => GNode.tutor_node
  | GNode.tutor_node => GNode.endNode
  | GNode.endNode => GNode.endNode

/-- Fuelled traversal of the compiled graph from a node: collect visited
nodes, stopping at END. -/
def runFrom : Nat → GNode → List GNode
  | 0, _ => []
  | _ + 1, GNode.endNode => []
  | n + 1, node => node :: runFrom n (graphEdge node)

/-- The node sequence one `invoke_generation_graph` call executes: resolve
the conditional entry point through `should_plan` and the entry mapping, then
follow the graph edges to END. -/
def generation_graph_path (fuel : Nat) (st : GraphState) : List GNode :=
  match entryMapping.lookup (should_plan st) with
  | some n => runFrom fuel n
  | none => []

/-- Default of `Settings.MEMORY_BUFFER_SIZE` (`app/core/config.py`, line 47). -/
def MEMORY_BUFFER_SIZE : Nat := 10

/-- Default of `Settings.STREAMING_TOKEN_THRESHOLD` (`app/core/config.py`,
line 44). -/
def STREAMING_TOKEN_THRESHOLD : Int := 100

/-- One buffered conversation turn: role and content. -/
structure BufMsg where
  role : String
  content : String
deriving DecidableEq, Repr

/-- Modelled from the spec: the per-session chat document kept by
`ChatStorageService` (`app/services/mongodb.py`, which is not present under
`src/`; only its importer `app/services/memory.py` is).  Per spec §3
(ConversationMemory) and §4.2, the document holds an ordered buffer of recent
raw turns plus an ordered list of accumulated summary strings. -/
structure ChatDoc where
  buffer : List BufMsg
  summaries : List String
deriving DecidableEq, Repr

/-- Modelled from the spec: `ChatStorageService.add_message` appends one turn
to the buffer and returns the updated document, whose `buffer_count` field is
the buffer length after the append (spec §4.2 `record(role, content)`). -/
def storage_add_message (d : ChatDoc) (role content : String) : ChatDoc :=
  { d with buffer := d.buffer ++ [⟨role, content⟩] }

/-- Modelled from the spec: `ChatStorageService.clear_buffer_and_add_summary`
atomically clears the buffer and appends the new summary to the summary list
(spec §3 ConversationMemory invariant and §4.2 `summarize()`). -/
def clear_buffer_and_add_summary (d : ChatDoc) (summary : String) : ChatDoc :=
  { buffer := [], summaries := d.summaries ++ [summary] }

/-- Embedding of `MemoryService._format_messages_for_summary`
(`app/services/memory.py`, lines 125-131). -/
def format_messages_for_summary (messages : List BufMsg) : String :=
  String.intercalate "\n\n"
    (messages.map (fun m =>
      (if m.role = "user" then "Student" else "Tutor") ++ ": " ++ m.content))

/-- Embedding of `MemoryService._summarize_buffer` (lines 90-123).  The summarizer LLM is
a parameter `llm : String → Option String`: `some s` is a successful call
returning summary `s`, `none` a raised exception.  The result pairs the
storage state after the call with either the summary or the propagated
exception; on failure the buffer is deliberately not cleared. -/
def summarize_buffer (llm : String → Option String) (d : ChatDoc) :
    ChatDoc × Except Unit String :=
  if d.buffer.isEmpty then (d, Except.ok "")
  else
    match llm (format_messages_for_summary d.buffer) with
    | some summary => (clear_buffer_and_add_summary d summary, Except.ok summary)
    | none => (d, Except.error ())

/-- Embedding of `MemoryService.add_user_message` (lines 62-71): store the turn; no
summarization check. -/
def add_user_message (d : ChatDoc) (content : String) : ChatDoc :=
  storage_add_message d "user" content

/-- Embedding of `MemoryService.add_assistant_message` (lines 73-88): store the turn, then
summarize when the returned `buffer_count` has reached the threshold. -/
def add_assistant_message (threshold : Nat) (llm : String → Option String)
    (d : ChatDoc) (content : String) : ChatDoc × Except Unit Unit :=
  let doc := storage_add_message d "assistant" content
  if doc.buffer.length ≥ threshold then
    let r := summarize_buffer llm doc
    (r.1, r.2.map (fun _ => ()))
  else (doc, Except.ok ())

/-- A conversation turn as recorded through the memory service. -/
inductive Turn where
  | user_t (content : String)
  | assistant_t (content : String)
deriving DecidableEq, Repr

/-- The buffer entry a turn becomes. -/
def Turn.toMsg : Turn → BufMsg
  | Turn.user_t c => ⟨"user", c⟩
  | Turn.assistant_t c => ⟨"assistant", c⟩

/-- Record one turn through the memory service. -/
def applyTurn (threshold : Nat) (llm : String → Option String) :
    Turn → ChatDoc → ChatDoc × Except Unit Unit
  | Turn.user_t c, d => (add_user_message d c, Except.ok ())
  | Turn.assistant_t c, d => add_assistant_message threshold llm d c

/-- Record a sequence of turns, stopping at the first raised exception. -/
def applyTurns (threshold : Nat) (llm : String → Option String) :
    List Turn → ChatDoc → ChatDoc × Except Unit Unit
  | [], d => (d, Except.ok ())
  | t :: ts, d =>
    match applyTurn threshold llm t d with
    | (d', Except.ok _) => applyTurns threshold llm ts d'
    | (d', Except.error e) => (d', Except.error e)

/-- ASCII lowercase of one character, modelling `str.lower` on the inputs the
classifier sees. -/
def lowerChar (c : Char) : Char := c.toLower

/-- Python `str.lower()`. -/
def lowerStr (s : String) : String := String.mk (s.data.map lowerChar)

/-- The whitespace characters Python `str.strip()` removes. -/
def wsChars : List Char := [' ', '\t', '\n', '\r', '\x0b', '\x0c']

/-- Python `str.strip()`: drop leading and trailing whitespace. -/
def stripStr (s : String) : String :=
  String.mk (((s.data.dropWhile (fun c => wsChars.contains c)).reverse.dropWhile
    (fun c => wsChars.contains c)).reverse)

/-- Sublist-of-consecutive-characters test, modelling Python's
`needle in haystack` on strings. -/
def isSubList : List Char → List Char → Bool
  | pat, [] => pat.isEmpty
  | pat, c :: rest => pat.isPrefixOf (c :: rest) || isSubList pat rest

/-- Python `needle in haystack` for strings. -/
def strContains (haystack needle : String) : Bool :=
  isSubList needle.data haystack.data

/-- Embedding of `should_stream` (`app/core/llm_factory.py`, lines 208-222): stream
exactly when the expected token count is at or above the configured
threshold. -/
def should_stream (expected_tokens : Int) : Bool :=
  expected_tokens ≥ STREAMING_TOKEN_THRESHOLD

/-- The `estimates` dictionary of `estimate_response_tokens`
(`app/core/llm_factory.py`, lines 236-246). -/
def tokenEstimates : List (String × Int) :=
  [("acknowledgment", 20), ("short_answer", 50), ("clarification", 80),
   ("explanation", 200), ("detailed_explanation", 400), ("lesson_intro", 300),
   ("day_summary", 250), ("plan_generation", 2000), ("default", 150)]

/-- Embedding of `estimate_response_tokens` (lines 225-247): dictionary lookup with the
`"default"` entry as fallback. -/
def estimate_response_tokens (message_type : String) : Int :=
  (tokenEstimates.lookup message_type).getD 150

/-- The `acknowledgment_phrases` list of `classify_expected_response`
(lines 266-270). -/
def acknowledgment_phrases : List String :=
  ["ok", "okay", "got it", "i understand", "understood",
   "yes", "no", "sure", "thanks", "thank you", "next",
   "continue", "go on", "proceed"]

/-- The `explanation_triggers` list (lines 275-279). -/
def explanation_triggers : List String :=
  ["explain", "what is", "what are", "how does", "how do",
   "why is", "why does", "tell me about", "describe",
   "can you explain", "help me understand"]

/-- The `clarification_triggers` list (lines 284-287). -/
def clarification_triggers : List String :=
  ["what do you mean", "i don\x27t understand", "confused",
   "simpler", "example", "analogy"]

/-- Embedding of `classify_expected_response` (`app/core/llm_factory.py`, lines 250-292).
A `None` or empty message is falsy and classifies as `"lesson_intro"`;
otherwise the message is lowercased and stripped, then checked in order
against the acknowledgment list / length bound, the explanation triggers,
and the clarification triggers, with `"default"` as the fallback. -/
def classify_expected_response (user_message : Option String) : String :=
  match user_message with
  | none => "lesson_intro"
  | some msg =>
    if msg = "" then "lesson_intro"
    else
      let message_lower := stripStr (lowerStr msg)
      if acknowledgment_phrases.contains message_lower ∨ message_lower.length < 10 then
        "acknowledgment"
      else if explanation_triggers.any (fun t => strContains message_lower t) then
        "detailed_explanation"
      else if clarification_triggers.any (fun t => strContains message_lower t) then
        "explanation"
      else
        "default"

/-- One progress operation a caller can issue against a session, each
carrying the wall-clock instant at which it runs. -/
inductive ProgressOp where
  | adv_topic (now : Nat)
  | adv_day (now : Nat)
  | goto (now : Nat) (d : Int)
deriving DecidableEq, Repr

/-- Apply one progress operation.  A rejected `goto_day` request (HTTP 400)
leaves the session unchanged. -/
def applyOp (op : ProgressOp) (s : LearningSession) : LearningSession :=
  match op with
  | ProgressOp.adv_topic now => advance_topic now s
  | ProgressOp.adv_day now => advance_day now s
  | ProgressOp.goto now d =>
    match goto_day now d s with
    | Except.ok s' => s'
    | Except.error _ => s

/-- Apply a sequence of progress operations in order. -/
def applyOps (ops : List ProgressOp) (s : LearningSession) : LearningSession :=
  ops.foldl (fun s op => applyOp op s) s

/-- The state bounds of the claimed invariant that the code actually
maintains: `current_day ∈ [1, total_days]` and `current_topic_index ≥ 0`. -/
def progressInv (s : LearningSession) : Prop :=
  1 ≤ s.current_day ∧ s.current_day ≤ s.total_days ∧ 0 ≤ s.current_topic_index

instance (s : LearningSession) : Decidable (progressInv s) := by
  unfold progressInv
  infer_instance

/-- A one-day, one-topic lesson plan, used as concrete test data. -/
def onePlan : LessonPlan :=
  { days := [{ title := "Day 1", objectives := ["o1"], topics := ["t1"] }] }

/-- An in-progress one-day session at day 1, topic 0, holding `onePlan`. -/
def oneSession : LearningSession :=
  { status := SessionStatus.in_progress, total_days := 1, current_day := 1,
    current_topic_index := 0, lesson_plan := some onePlan,
    updated_at := 0, completed_at := none }

/-- A two-day plan with two topics on day 1 and three on day 2, used as
concrete test data for the progress percentage. -/
def twoPlan : LessonPlan :=
  { days := [{ title := "Day 1", objectives := [], topics := ["a", "b"] },
             { title := "Day 2", objectives := [], topics := ["c", "d", "e"] }] }

/-- An in-progress two-day session at day 2, topic 1, holding `twoPlan`. -/
def twoSession : LearningSession :=
  { status := SessionStatus.in_progress, total_days := 2, current_day := 2,
    current_topic_index := 1, lesson_plan := some twoPlan,
    updated_at := 0, completed_at := none }

/-- A session still in PLANNING with no lesson plan. -/
def planningSession : LearningSession :=
  { status := SessionStatus.planning, total_days := 3, current_day := 1,
    current_topic_index := 0, lesson_plan := none,
    updated_at := 0, completed_at := none }

/-- A READY session holding `twoPlan`, before the first chat turn. -/
def readySession : LearningSession :=
  { status := SessionStatus.ready, total_days := 2, current_day := 1,
    current_topic_index := 0, lesson_plan := some twoPlan,
    updated_at := 0, completed_at := none }

/-- Number of topics of the day a session currently points at, or 0 when the
plan has no such day: the spec's `topics_in_current_day`. -/
def topics_in_current_day (s : LearningSession) : Int :=
  match s.lesson_plan with
  | some p => topicsAtDay p.days s.current_day
  | none => 0

/-- Nine alternating conversation turns, used as concrete test data for the
memory buffer. -/
def sampleTurns : List Turn :=
  [Turn.user_t "u1", Turn.assistant_t "a1", Turn.user_t "u2", Turn.assistant_t "a2",
   Turn.user_t "u3", Turn.assistant_t "a3", Turn.user_t "u4", Turn.assistant_t "a4",
   Turn.user_t "u5"]

/-- A graph result carrying a non-empty tutor response and an advance-topic
signal. -/
def sampleResult : GraphResult :=
  { ai_response := "Welcome to day 1", should_advance_topic := true,
    is_day_complete := false, is_course_complete := false }

/-- Completion re-derivation never changes the progress fields, the plan, or
the configured length of the session. -/
theorem checkCompletion_fields (now : Nat) (s : LearningSession) :
    (checkCompletion now s).current_day = s.current_day ∧
    (checkCompletion now s).current_topic_index = s.current_topic_index ∧
    (checkCompletion now s).total_days = s.total_days ∧
    (checkCompletion now s).lesson_plan = s.lesson_plan := by
  unfold checkCompletion
  split
  · split
    · split
      · split <;> simp
      · simp
    · simp
  · simp

/-- When the completion re-check marks a session COMPLETED that was not
COMPLETED before, the completion condition held. -/
theorem checkCompletion_status_completed (now : Nat) (s : LearningSession)
    (h : (checkCompletion now s).status = SessionStatus.completed)
    (hne : s.status ≠ SessionStatus.completed) :
    s.current_day ≥ s.total_days ∧
    ∃ p ld, s.lesson_plan = some p ∧ p.days.getLast? = some ld ∧
      s.current_topic_index ≥ (ld.topics.length : Int) - 1 := by
  unfold checkCompletion at h
  by_cases hday : s.current_day ≥ s.total_days
  · refine ⟨hday, ?_⟩
    rw [if_pos hday] at h
    rcases hplan : s.lesson_plan with _ | p
    · rw [hplan] at h
      exact absurd h hne
    · rw [hplan] at h
      dsimp only at h
      rcases hld : p.days.getLast? with _ | ld
      · rw [hld] at h
        exact absurd h hne
      · rw [hld] at h
        dsimp only at h
        by_cases hidx : s.current_topic_index ≥ (ld.topics.length : Int) - 1
        · exact ⟨p, ld, rfl, hld, hidx⟩
        · rw [if_neg hidx] at h
          exact absurd h hne
  · rw [if_neg hday] at h
    exact absurd h hne

/-- When the completion condition holds, the re-check marks the session
COMPLETED and stamps `completed_at` with the current clock value. -/
theorem checkCompletion_of_complete (now : Nat) (s : LearningSession)
    (p : LessonPlan) (ld : LessonDay)
    (hp : s.lesson_plan = some p) (hld : p.days.getLast? = some ld)
    (hday : s.current_day ≥ s.total_days)
    (hidx : s.current_topic_index ≥ (ld.topics.length : Int) - 1) :
    checkCompletion now s =
      { s with status := SessionStatus.completed, completed_at := some now } := by
  unfold checkCompletion
  rw [if_pos hday, hp]
  dsimp only
  rw [hld]
  dsimp only
  rw [if_pos hidx]

/-- Field behaviour of `update_progress`: the day is the clamped argument (or
unchanged), the topic index is the argument (or unchanged), and the plan and
total length are untouched. -/
theorem update_progress_fields (now : Nat) (cd? ci? : Option Int)
    (s : LearningSession) :
    (update_progress now cd? ci? s).current_day
        = (match cd? with | some d => min d s.total_days | none => s.current_day) ∧
    (update_progress now cd? ci? s).current_topic_index
        = (match ci? with | some i => i | none => s.current_topic_index) ∧
    (update_progress now cd? ci? s).total_days = s.total_days ∧
    (update_progress now cd? ci? s).lesson_plan = s.lesson_plan := by
  unfold update_progress
  obtain ⟨h1, h2, h3, h4⟩ := checkCompletion_fields now
    { applyTopicUpdate ci? (applyDayUpdate cd? s) with updated_at := now }
  rw [h1, h2, h3, h4]
  cases cd? <;> cases ci? <;> simp [applyDayUpdate, applyTopicUpdate]

/-- C1 (amended): whenever a progress update leaves `current_day` equal to
`total_days` and `current_topic_index` at or past the last topic index of the
final day of the plan, the session status is force-set to COMPLETED and
`completed_at` is stamped with the clock value of that call; likewise every
`set_status(COMPLETED)` call stamps `completed_at`.  The recomputation is
idempotent on the status, but `completed_at` is re-stamped with the current
time on every such call rather than being set once. -/
theorem completion_rederived_and_restamped :
    (∀ (s : LearningSession) (now : Nat) (cd? ci? : Option Int)
        (p : LessonPlan) (ld : LessonDay),
      s.lesson_plan = some p → p.days.getLast? = some ld →
      (update_progress now cd? ci? s).current_day = s.total_days →
      (update_progress now cd? ci? s).current_topic_index ≥ (ld.topics.length : Int) - 1 →
      (update_progress now cd? ci? s).status = SessionStatus.completed ∧
      (update_progress now cd? ci? s).completed_at = some now) ∧
    (∀ (s : LearningSession) (now : Nat),
      (set_status now SessionStatus.completed s).status = SessionStatus.completed ∧
      (set_status now SessionStatus.completed s).completed_at = some now) := by
  constructor
  · intro s now cd? ci? p ld hp hld hday hidx
    set t : LearningSession :=
      { applyTopicUpdate ci? (applyDayUpdate cd? s) with updated_at := now } with ht
    have hup : update_progress now cd? ci? s = checkCompletion now t := rfl
    have htplan : t.lesson_plan = some p := by
      rw [ht]
      cases cd? <;> cases ci? <;> simpa [applyDayUpdate, applyTopicUpdate] using hp
    have httot : t.total_days = s.total_days := by
      rw [ht]
      cases cd? <;> cases ci? <;> simp [applyDayUpdate, applyTopicUpdate]
    obtain ⟨hcd, hci, _, _⟩ := checkCompletion_fields now t
    rw [hup] at hday hidx ⊢
    rw [hcd] at hday
    rw [hci] at hidx
    have hge : t.current_day ≥ t.total_days := by rw [httot, hday]
    rw [checkCompletion_of_complete now t p ld htplan hld hge hidx]
    exact ⟨rfl, rfl⟩
  · intro s now
    simp [set_status]

/-- C1 counterexample: on a completed one-day, one-topic session, a repeated
progress update at a later clock instant re-stamps `completed_at`, so
repeated progress updates after completion do change `completed_at`. -/
theorem completed_at_changes_on_repeat :
    (update_progress 5 none (some 1) oneSession).status = SessionStatus.completed ∧
    (update_progress 5 none (some 1) oneSession).completed_at = some 5 ∧
    (update_progress 7 none (some 1)
        (update_progress 5 none (some 1) oneSession)).completed_at = some 7 ∧
    (update_progress 7 none (some 1)
          (update_progress 5 none (some 1) oneSession)).completed_at ≠
      (update_progress 5 none (some 1) oneSession).completed_at := by
  refine ⟨rfl, rfl, rfl, ?_⟩
  decide

/-- Witness for C1: the amended completion theorem applied to the one-day
sample session completing its only topic at clock 5. -/
theorem completion_rederived_and_restamped_applied :
    ((update_progress 5 none (some 1) oneSession).status = SessionStatus.completed ∧
      (update_progress 5 none (some 1) oneSession).completed_at = some 5) ∧
    ((set_status 9 SessionStatus.completed oneSession).status = SessionStatus.completed ∧
      (set_status 9 SessionStatus.completed oneSession).completed_at = some 9) :=
  ⟨completion_rederived_and_restamped.1 oneSession 5 none (some 1) onePlan
      ⟨"Day 1", ["o1"], ["t1"]⟩ rfl rfl (by decide) (by decide),
    completion_rederived_and_restamped.2 oneSession 9⟩

/-- C7: `advance_day` below the last day moves to the next day and resets the
topic index; `advance_day` on the last day is a no-op returning the session
unchanged. -/
theorem advance_day_step_or_noop (now : Nat) (s : LearningSession) :
    (s.current_day < s.total_days →
      (advance_day now s).current_day = s.current_day + 1 ∧
      (advance_day now s).current_topic_index = 0) ∧
    (s.current_day = s.total_days → advance_day now s = s) := by
  constructor
  · intro hlt
    unfold advance_day
    rw [if_pos hlt]
    obtain ⟨hcd, hci, _, _⟩ := update_progress_fields now (some (s.current_day + 1)) (some 0) s
    rw [hcd, hci]
    exact ⟨min_eq_left (by omega), rfl⟩
  · intro heq
    unfold advance_day
    rw [if_neg (by omega)]

/-- Witness for C7: `advance_day` applied to the two-day READY session (day
1 of 2, so it advances) and to the one-day session (day 1 of 1, so it is a
no-op). -/
theorem advance_day_step_or_noop_applied :
    ((advance_day 3 readySession).current_day = readySession.current_day + 1 ∧
      (advance_day 3 readySession).current_topic_index = 0) ∧
    advance_day 3 oneSession = oneSession :=
  ⟨(advance_day_step_or_noop 3 readySession).1 (by decide),
    (advance_day_step_or_noop 3 oneSession).2 (by decide)⟩

/-- C8: for an existing session, `send_message` rejects the request exactly
when the status is neither READY nor IN_PROGRESS, and the first chat turn
against a READY session sets its status to IN_PROGRESS before the graph is
invoked. -/
theorem send_message_status_gate (now : Nat) (s : LearningSession) :
    ((∃ e, send_message_validate now s = Except.error e) ↔
      ¬(s.status = SessionStatus.ready ∨ s.status = SessionStatus.in_progress)) ∧
    (s.status = SessionStatus.ready →
      send_message_validate now s =
          Except.ok (set_status now SessionStatus.in_progress s) ∧
        (set_status now SessionStatus.in_progress s).status = SessionStatus.in_progress) := by
  constructor
  · by_cases h : s.status = SessionStatus.ready ∨ s.status = SessionStatus.in_progress
    · constructor
      · rintro ⟨e, he⟩
        unfold send_message_validate at he
        rw [if_neg (not_not_intro h)] at he
        by_cases hr : s.status = SessionStatus.ready
        · rw [if_pos hr] at he
          simp at he
        · rw [if_neg hr] at he
          simp at he
      · intro hok
        exact absurd h hok
    · constructor
      · intro _
        exact h
      · intro _
        refine ⟨PyError.valueError "Session is not ready for chat", ?_⟩
        unfold send_message_validate
        rw [if_pos h]
  · intro hready
    refine ⟨?_, by simp [set_status]⟩
    unfold send_message_validate
    rw [if_neg (by simp [hready]), if_pos hready]

/-- Witness for C8: the status gate applied to the PLANNING session (which
is rejected) and to the READY session (whose first turn moves it to
IN_PROGRESS). -/
theorem send_message_status_gate_applied :
    (∃ e, send_message_validate 1 planningSession = Except.error e) ∧
    send_message_validate 1 readySession =
        Except.ok (set_status 1 SessionStatus.in_progress readySession) ∧
      (set_status 1 SessionStatus.in_progress readySession).status =
        SessionStatus.in_progress :=
  ⟨(send_message_status_gate 1 planningSession).1.mpr (by decide),
    (send_message_status_gate 1 readySession).2 rfl⟩

/-- The two argument-handling passes of `update_progress` change neither the
status nor the plan nor the total length. -/
theorem applyUpdates_fields (cd? ci? : Option Int) (s : LearningSession) :
    (applyTopicUpdate ci? (applyDayUpdate cd? s)).status = s.status ∧
    (applyTopicUpdate ci? (applyDayUpdate cd? s)).lesson_plan = s.lesson_plan ∧
    (applyTopicUpdate ci? (applyDayUpdate cd? s)).total_days = s.total_days := by
  cases cd? <;> cases ci? <;> simp [applyDayUpdate, applyTopicUpdate]

/-- When `update_progress` marks a previously non-COMPLETED session
COMPLETED, the completion condition held on the updated fields. -/
theorem update_progress_newly_completed (now : Nat) (cd? ci? : Option Int)
    (s : LearningSession) (hne : s.status ≠ SessionStatus.completed)
    (h : (update_progress now cd? ci? s).status = SessionStatus.completed) :
    (update_progress now cd? ci? s).current_day ≥ s.total_days ∧
    ∃ p ld, s.lesson_plan = some p ∧ p.days.getLast? = some ld ∧
      (update_progress now cd? ci? s).current_topic_index ≥ (ld.topics.length : Int) - 1 := by
  set t : LearningSession :=
    { applyTopicUpdate ci? (applyDayUpdate cd? s) with updated_at := now } with ht
  obtain ⟨hst, hpl, htot⟩ := applyUpdates_fields cd? ci? s
  have htst : t.status = s.status := hst
  have htpl : t.lesson_plan = s.lesson_plan := hpl
  have httot : t.total_days = s.total_days := htot
  have hup : update_progress now cd? ci? s = checkCompletion now t := rfl
  rw [hup] at h ⊢
  obtain ⟨hcd, hci, _, _⟩ := checkCompletion_fields now t
  obtain ⟨hday, p, ld, hp, hld, hidx⟩ :=
    checkCompletion_status_completed now t h (by rw [htst]; exact hne)
  rw [hcd, hci]
  exact ⟨by rw [← httot]; exact hday, p, ld, by rw [← htpl]; exact hp, hld, hidx⟩

/-- Every progress operation leaves the plan and the configured total number
of days unchanged. -/
theorem applyOp_config_fixed (op : ProgressOp) (s : LearningSession) :
    (applyOp op s).total_days = s.total_days ∧
    (applyOp op s).lesson_plan = s.lesson_plan := by
  cases op with
  | adv_topic now =>
    obtain ⟨_, _, h3, h4⟩ :=
      update_progress_fields now none (some (s.current_topic_index + 1)) s
    exact ⟨h3, h4⟩
  | adv_day now =>
    show (advance_day now s).total_days = s.total_days ∧
      (advance_day now s).lesson_plan = s.lesson_plan
    unfold advance_day
    by_cases hlt : s.current_day < s.total_days
    · rw [if_pos hlt]
      obtain ⟨_, _, h3, h4⟩ :=
        update_progress_fields now (some (s.current_day + 1)) (some 0) s
      exact ⟨h3, h4⟩
    · rw [if_neg hlt]
      exact ⟨rfl, rfl⟩
  | goto now d =>
    show ((match goto_day now d s with
        | Except.ok s' => s'
        | Except.error _ => s).total_days = s.total_days ∧
      (match goto_day now d s with
        | Except.ok s' => s'
        | Except.error _ => s).lesson_plan = s.lesson_plan)
    unfold goto_day
    by_cases hc : d < 1 ∨ d > s.total_days
    · rw [if_pos hc]
      exact ⟨rfl, rfl⟩
    · rw [if_neg hc]
      obtain ⟨_, _, h3, h4⟩ := update_progress_fields now (some d) (some 0) s
      exact ⟨h3, h4⟩

/-- One progress operation preserves the day bounds and the non-negativity
of the topic index. -/
theorem applyOp_inv (op : ProgressOp) (s : LearningSession)
    (h : progressInv s) : progressInv (applyOp op s) := by
  obtain ⟨h1, h2, h3⟩ := h
  cases op with
  | adv_topic now =>
    obtain ⟨hcd, hci, htot, _⟩ :=
      update_progress_fields now none (some (s.current_topic_index + 1)) s
    refine ⟨?_, ?_, ?_⟩
    · show 1 ≤ (update_progress now none (some (s.current_topic_index + 1)) s).current_day
      rw [hcd]
      exact h1
    · show (update_progress now none (some (s.current_topic_index + 1)) s).current_day
        ≤ (update_progress now none (some (s.current_topic_index + 1)) s).total_days
      rw [hcd, htot]
      exact h2
    · show 0 ≤ (update_progress now none (some (s.current_topic_index + 1)) s).current_topic_index
      rw [hci]
      show 0 ≤ s.current_topic_index + 1
      omega
  | adv_day now =>
    show progressInv (advance_day now s)
    unfold advance_day
    by_cases hlt : s.current_day < s.total_days
    · rw [if_pos hlt]
      obtain ⟨hcd, hci, htot, _⟩ :=
        update_progress_fields now (some (s.current_day + 1)) (some 0) s
      refine ⟨?_, ?_, ?_⟩
      · rw [hcd]
        show 1 ≤ min (s.current_day + 1) s.total_days
        omega
      · rw [hcd, htot]
        show min (s.current_day + 1) s.total_days ≤ s.total_days
        omega
      · rw [hci]
    · rw [if_neg hlt]
      exact ⟨h1, h2, h3⟩
  | goto now d =>
    show progressInv (match goto_day now d s with
      | Except.ok s' => s'
      | Except.error _ => s)
    unfold goto_day
    by_cases hc : d < 1 ∨ d > s.total_days
    · rw [if_pos hc]
      exact ⟨h1, h2, h3⟩
    · rw [if_neg hc]
      obtain ⟨hcd, hci, htot, _⟩ := update_progress_fields now (some d) (some 0) s
      refine ⟨?_, ?_, ?_⟩
      · show 1 ≤ (update_progress now (some d) (some 0) s).current_day
        rw [hcd]
        show 1 ≤ min d s.total_days
        omega
      · show (update_progress now (some d) (some 0) s).current_day
          ≤ (update_progress now (some d) (some 0) s).total_days
        rw [hcd, htot]
        show min d s.total_days ≤ s.total_days
        omega
      · show 0 ≤ (update_progress now (some d) (some 0) s).current_topic_index
        rw [hci]

/-- C2 (amended): across every sequence of `advance_topic`, `advance_day`,
and `goto_day` operations, `current_day ∈ [1, total_days]` and
`current_topic_index ≥ 0` hold at every observed state, and whenever one of
these operations newly sets status COMPLETED, at that point
`current_day = total_days` and `current_topic_index` is at or past the last
topic index of the plan's final day.  The claimed upper bound
`current_topic_index ≤ topics_in_current_day` does not hold (see the
counterexample): `advance_topic` never clamps the index. -/
theorem progress_invariant_and_completion :
    (∀ (ops : List ProgressOp) (s : LearningSession),
      progressInv s → progressInv (applyOps ops s)) ∧
    (∀ (op : ProgressOp) (s : LearningSession), progressInv s →
      s.status ≠ SessionStatus.completed →
      (applyOp op s).status = SessionStatus.completed →
      (applyOp op s).current_day = s.total_days ∧
      ∃ p ld, s.lesson_plan = some p ∧ p.days.getLast? = some ld ∧
        (applyOp op s).current_topic_index ≥ (ld.topics.length : Int) - 1) := by
  constructor
  · intro ops
    induction ops with
    | nil =>
      intro s h
      exact h
    | cons op rest ih =>
      intro s h
      exact ih (applyOp op s) (applyOp_inv op s h)
  · intro op s hinv hne hcomp
    have hub : (applyOp op s).current_day ≤ s.total_days := by
      obtain ⟨_, hle, _⟩ := applyOp_inv op s hinv
      rw [(applyOp_config_fixed op s).1] at hle
      exact hle
    have hmain : s.total_days ≤ (applyOp op s).current_day ∧
        ∃ p ld, s.lesson_plan = some p ∧ p.days.getLast? = some ld ∧
          (applyOp op s).current_topic_index ≥ (ld.topics.length : Int) - 1 := by
      cases op with
      | adv_topic now =>
        exact update_progress_newly_completed now none
          (some (s.current_topic_index + 1)) s hne hcomp
      | adv_day now =>
        by_cases hlt : s.current_day < s.total_days
        · have hAD : applyOp (ProgressOp.adv_day now) s
              = update_progress now (some (s.current_day + 1)) (some 0) s := by
            show advance_day now s = _
            unfold advance_day
            rw [if_pos hlt]
          rw [hAD] at hcomp ⊢
          exact update_progress_newly_completed now (some (s.current_day + 1))
            (some 0) s hne hcomp
        · have hAD : applyOp (ProgressOp.adv_day now) s = s := by
            show advance_day now s = s
            unfold advance_day
            rw [if_neg hlt]
          rw [hAD] at hcomp
          exact absurd hcomp hne
      | goto now d =>
        by_cases hc : d < 1 ∨ d > s.total_days
        · have hGD : applyOp (ProgressOp.goto now d) s = s := by
            show (match goto_day now d s with
              | Except.ok s' => s'
              | Except.error _ => s) = s
            unfold goto_day
            rw [if_pos hc]
          rw [hGD] at hcomp
          exact absurd hcomp hne
        · have hGD : applyOp (ProgressOp.goto now d) s
              = update_progress now (some d) (some 0) s := by
            show (match goto_day now d s with
              | Except.ok s' => s'
              | Except.error _ => s) = _
            unfold goto_day
            rw [if_neg hc]
          rw [hGD] at hcomp ⊢
          exact update_progress_newly_completed now (some d) (some 0) s hne hcomp
    obtain ⟨hge, hex⟩ := hmain
    exact ⟨le_antisymm hub hge, hex⟩

/-- C2 counterexample: two `advance_topic` calls on the one-day one-topic
session push `current_topic_index` to 2 while the current day has a single
topic, violating the claimed `current_topic_index ∈ [0, topics_in_current_day]`
bound. -/
theorem topic_index_exceeds_day_bound :
    (advance_topic 1 (advance_topic 0 oneSession)).current_topic_index = 2 ∧
    topics_in_current_day (advance_topic 1 (advance_topic 0 oneSession)) = 1 ∧
    ¬((advance_topic 1 (advance_topic 0 oneSession)).current_topic_index ≤
        topics_in_current_day (advance_topic 1 (advance_topic 0 oneSession))) := by
  refine ⟨rfl, rfl, ?_⟩
  decide

/-- Witness for C2: the preserved bounds after a concrete operation
sequence on the two-day session, and the completion condition at the
concrete completing step on the one-day session. -/
theorem progress_invariant_and_completion_applied :
    progressInv (applyOps [ProgressOp.adv_topic 1, ProgressOp.adv_day 2,
        ProgressOp.goto 3 1] twoSession) ∧
    ((applyOp (ProgressOp.adv_topic 4) oneSession).current_day = oneSession.total_days ∧
      ∃ p ld, oneSession.lesson_plan = some p ∧ p.days.getLast? = some ld ∧
        (applyOp (ProgressOp.adv_topic 4) oneSession).current_topic_index ≥
          (ld.topics.length : Int) - 1) :=
  ⟨progress_invariant_and_completion.1 _ twoSession (by decide),
    progress_invariant_and_completion.2 (ProgressOp.adv_topic 4) oneSession
      (by decide) (by decide) (by decide)⟩

/-- C3: `SessionService` defines no `append_to_chat_history` method, so
whenever the graph returns a non-empty `ai_response`, the persistence step of
`ChatService.send_message` (and likewise `ChatService.start_lesson`) raises
`AttributeError` before any topic advancement, day advancement, or
course-completion status change is applied: the call returns the
`AttributeError` with no mutated session state. -/
theorem append_to_chat_history_is_missing :
    "append_to_chat_history" ∉ sessionServiceMethods ∧
    (∀ (now : Nat) (result : GraphResult) (s : LearningSession),
      result.ai_response ≠ "" →
      send_message_after_graph now result s =
        Except.error (PyError.attributeError "append_to_chat_history")) ∧
    (∀ result : GraphResult, result.ai_response ≠ "" →
      start_lesson_persist result =
        Except.error (PyError.attributeError "append_to_chat_history")) := by
  refine ⟨by decide, ?_, ?_⟩
  · intro now result s hne
    unfold send_message_after_graph
    rw [if_pos hne]
    rfl
  · intro result hne
    unfold start_lesson_persist
    rw [if_pos hne]
    rfl

/-- Witness for C3: the missing-method failure applied to the sample graph
result, whose tutor response is non-empty and which requests a topic
advancement that is therefore never applied. -/
theorem append_to_chat_history_is_missing_applied :
    send_message_after_graph 1 sampleResult oneSession =
        Except.error (PyError.attributeError "append_to_chat_history") ∧
    start_lesson_persist sampleResult =
      Except.error (PyError.attributeError "append_to_chat_history") :=
  ⟨append_to_chat_history_is_missing.2.1 1 sampleResult oneSession (by decide),
    append_to_chat_history_is_missing.2.2 sampleResult (by decide)⟩

/-- Traversal from the END node visits nothing. -/
theorem runFrom_endNode (n : Nat) : runFrom n GNode.endNode = [] := by
  cases n <;> rfl

/-- C4: with no lesson plan in the incoming state, the graph runs the plan
generator and then the tutor; with a lesson plan present it runs the tutor
directly; the plan generator flows unconditionally to the tutor, and the
tutor edge always ends the graph. -/
theorem generation_graph_routing (fuel : Nat) (st : GraphState) (hf : 2 ≤ fuel) :
    (st.lesson_plan = none →
      generation_graph_path fuel st = [GNode.plan_generator_node, GNode.tutor_node]) ∧
    (∀ p, st.lesson_plan = some p →
      generation_graph_path fuel st = [GNode.tutor_node]) ∧
    graphEdge GNode.plan_generator_node = GNode.tutor_node ∧
    graphEdge GNode.tutor_node = GNode.endNode := by
  obtain ⟨f, rfl⟩ : ∃ f, fuel = f + 2 := ⟨fuel - 2, by omega⟩
  refine ⟨?_, ?_, rfl, rfl⟩
  · intro hnone
    unfold generation_graph_path should_plan
    rw [if_pos hnone]
    show runFrom (f + 2) GNode.plan_generator_node = _
    show GNode.plan_generator_node :: runFrom (f + 1) GNode.tutor_node = _
    show GNode.plan_generator_node :: GNode.tutor_node :: runFrom f GNode.endNode = _
    rw [runFrom_endNode]
  · intro p hsome
    unfold generation_graph_path should_plan
    rw [if_neg (by rw [hsome]; simp)]
    show runFrom (f + 2) GNode.tutor_node = _
    show GNode.tutor_node :: runFrom (f + 1) GNode.endNode = _
    rw [runFrom_endNode]

/-- Witness for C4: the routing theorem applied at fuel 2 to a state with no
plan and to a state holding the one-day plan. -/
theorem generation_graph_routing_applied :
    generation_graph_path 2 { lesson_plan := none } =
        [GNode.plan_generator_node, GNode.tutor_node] ∧
    generation_graph_path 2 { lesson_plan := some onePlan } = [GNode.tutor_node] :=
  ⟨(generation_graph_routing 2 { lesson_plan := none } (by decide)).1 rfl,
    (generation_graph_routing 2 { lesson_plan := some onePlan } (by decide)).2.1 onePlan rfl⟩

/-- While the running total stays below the threshold, recording turns just
appends them to the buffer and never touches the summary list. -/
theorem applyTurns_below_threshold (threshold : Nat) (llm : String → Option String) :
    ∀ (turns : List Turn) (d : ChatDoc),
      d.buffer.length + turns.length < threshold →
      applyTurns threshold llm turns d =
        ({ buffer := d.buffer ++ turns.map Turn.toMsg, summaries := d.summaries },
          Except.ok ()) := by
  intro turns
  induction turns with
  | nil =>
    intro d h
    simp [applyTurns]
  | cons t ts ih =>
    intro d h
    simp only [List.length_cons] at h
    cases t with
    | user_t c =>
      have hrec := ih { buffer := d.buffer ++ [⟨"user", c⟩], summaries := d.summaries }
        (by simp only [List.length_append, List.length_singleton]; omega)
      simp only [applyTurns, applyTurn, add_user_message, storage_add_message]
      rw [hrec]
      simp [Turn.toMsg]
    | assistant_t c =>
      have hlen : ¬((d.buffer ++ [(⟨"assistant", c⟩ : BufMsg)]).length ≥ threshold) := by
        simp only [List.length_append, List.length_singleton]
        omega
      have hrec := ih { buffer := d.buffer ++ [⟨"assistant", c⟩], summaries := d.summaries }
        (by simp only [List.length_append, List.length_singleton]; omega)
      simp only [applyTurns, applyTurn, add_assistant_message, storage_add_message]
      rw [if_neg hlen]
      simp only []
      rw [hrec]
      simp [Turn.toMsg]

/-- C5: the buffer threshold defaults to 10; recording fewer than threshold
turns from an empty buffer leaves the buffer holding exactly those turns with
the summary list unchanged; a user turn never triggers summarization; and an
assistant turn that brings the buffer count to the threshold triggers one
successful summarization, after which the buffer is empty and the summary
list has grown by one. -/
theorem memory_buffer_threshold_behaviour :
    MEMORY_BUFFER_SIZE = 10 ∧
    (∀ (threshold : Nat) (llm : String → Option String) (turns : List Turn)
        (d : ChatDoc), d.buffer = [] → turns.length < threshold →
      applyTurns threshold llm turns d =
        ({ buffer := turns.map Turn.toMsg, summaries := d.summaries },
          Except.ok ())) ∧
    (∀ (d : ChatDoc) (c : String),
      (add_user_message d c).buffer.length = d.buffer.length + 1 ∧
      (add_user_message d c).summaries = d.summaries) ∧
    (∀ (threshold : Nat) (llm : String → Option String) (d : ChatDoc)
        (c summary : String),
      d.buffer.length + 1 = threshold →
      llm (format_messages_for_summary (d.buffer ++ [⟨"assistant", c⟩])) = some summary →
      add_assistant_message threshold llm d c =
        ({ buffer := [], summaries := d.summaries ++ [summary] }, Except.ok ())) := by
  refine ⟨rfl, ?_, ?_, ?_⟩
  · intro threshold llm turns d hemp hlen
    have := applyTurns_below_threshold threshold llm turns d
      (by rw [hemp]; simpa using hlen)
    rw [this]
    rw [hemp]
    simp
  · intro d c
    constructor
    · simp [add_user_message, storage_add_message]
    · rfl
  · intro threshold llm d c summary hlen hllm
    have hge : (d.buffer ++ [(⟨"assistant", c⟩ : BufMsg)]).length ≥ threshold := by
      simp only [List.length_append, List.length_singleton]
      omega
    have hne : ¬(d.buffer ++ [(⟨"assistant", c⟩ : BufMsg)]).isEmpty = true := by
      simp
    unfold add_assistant_message storage_add_message
    rw [if_pos hge]
    unfold summarize_buffer
    rw [if_neg hne, hllm]
    rfl

/-- Witness for C5: nine turns from an empty buffer stay buffered, and the
tenth (assistant) turn with an always-succeeding summarizer clears the buffer
and appends the summary. -/
theorem memory_buffer_threshold_behaviour_applied :
    applyTurns MEMORY_BUFFER_SIZE (fun _ => some "S") sampleTurns ⟨[], []⟩ =
        ({ buffer := sampleTurns.map Turn.toMsg, summaries := [] }, Except.ok ()) ∧
    add_assistant_message MEMORY_BUFFER_SIZE (fun _ => some "S")
        ⟨sampleTurns.map Turn.toMsg, []⟩ "a5" =
      ({ buffer := [], summaries := ["S"] }, Except.ok ()) :=
  ⟨memory_buffer_threshold_behaviour.2.1 MEMORY_BUFFER_SIZE (fun _ => some "S")
      sampleTurns ⟨[], []⟩ rfl (by decide),
    memory_buffer_threshold_behaviour.2.2.2 MEMORY_BUFFER_SIZE (fun _ => some "S")
      ⟨sampleTurns.map Turn.toMsg, []⟩ "a5" "S" (by decide) rfl⟩

/-- C6: a failing summarization call leaves the buffer and summary list
exactly as they were and propagates the exception; a successful call clears
the buffer and appends the summary; hence a retry with a working summarizer
after a failure succeeds with no data loss. -/
theorem summarize_failure_keeps_buffer :
    (∀ (llm : String → Option String) (d : ChatDoc),
      d.buffer ≠ [] → llm (format_messages_for_summary d.buffer) = none →
      summarize_buffer llm d = (d, Except.error ())) ∧
    (∀ (llm : String → Option String) (d : ChatDoc) (summary : String),
      d.buffer ≠ [] → llm (format_messages_for_summary d.buffer) = some summary →
      summarize_buffer llm d =
        ({ buffer := [], summaries := d.summaries ++ [summary] }, Except.ok summary)) ∧
    (∀ (llm llm2 : String → Option String) (d : ChatDoc) (summary : String),
      d.buffer ≠ [] → llm (format_messages_for_summary d.buffer) = none →
      llm2 (format_messages_for_summary d.buffer) = some summary →
      summarize_buffer llm2 (summarize_buffer llm d).1 =
        ({ buffer := [], summaries := d.summaries ++ [summary] }, Except.ok summary)) := by
  have hfail : ∀ (llm : String → Option String) (d : ChatDoc),
      d.buffer ≠ [] → llm (format_messages_for_summary d.buffer) = none →
      summarize_buffer llm d = (d, Except.error ()) := by
    intro llm d hne hllm
    unfold summarize_buffer
    rw [if_neg (by simpa using hne), hllm]
  have hok : ∀ (llm : String → Option String) (d : ChatDoc) (summary : String),
      d.buffer ≠ [] → llm (format_messages_for_summary d.buffer) = some summary →
      summarize_buffer llm d =
        ({ buffer := [], summaries := d.summaries ++ [summary] }, Except.ok summary) := by
    intro llm d summary hne hllm
    unfold summarize_buffer
    rw [if_neg (by simpa using hne), hllm]
    rfl
  refine ⟨hfail, hok, ?_⟩
  intro llm llm2 d summary hne hllm hllm2
  rw [hfail llm d hne hllm]
  exact hok llm2 d summary hne hllm2

/-- Witness for C6: a failing summarizer leaves the one-message buffer
intact, and the retry with a working summarizer then succeeds. -/
theorem summarize_failure_keeps_buffer_applied :
    summarize_buffer (fun _ => none) ⟨[⟨"user", "hi"⟩], ["old"]⟩ =
        (⟨[⟨"user", "hi"⟩], ["old"]⟩, Except.error ()) ∧
    summarize_buffer (fun _ => some "S2")
        (summarize_buffer (fun _ => none) ⟨[⟨"user", "hi"⟩], ["old"]⟩).1 =
      ({ buffer := [], summaries := ["old", "S2"] }, Except.ok "S2") :=
  ⟨summarize_failure_keeps_buffer.1 (fun _ => none) ⟨[⟨"user", "hi"⟩], ["old"]⟩
      (by decide) rfl,
    summarize_failure_keeps_buffer.2.2 (fun _ => none) (fun _ => some "S2")
      ⟨[⟨"user", "hi"⟩], ["old"]⟩ "S2" (by decide) rfl rfl⟩

/-- Days whose 1-based counter already exceeds `current_day` contribute
nothing to the completed-topic accumulation. -/
theorem completedTopicsAux_of_lt :
    ∀ (days : List LessonDay) (cd ci k : Int), cd < k →
      completedTopicsAux cd ci k days = 0 := by
  intro days
  induction days with
  | nil =>
    intro cd ci k _
    rfl
  | cons d rest ih =>
    intro cd ci k hk
    unfold completedTopicsAux
    dsimp only
    rw [if_neg (by omega), if_neg (by omega), ih cd ci (k + 1) (by omega)]
    omega

/-- Shifting the 1-based day counter is the same as shifting the target
day. -/
theorem completedTopicsAux_shift :
    ∀ (days : List LessonDay) (cd ci k : Int),
      completedTopicsAux cd ci (k + 1) days = completedTopicsAux (cd - 1) ci k days := by
  intro days
  induction days with
  | nil =>
    intro cd ci k
    rfl
  | cons d rest ih =>
    intro cd ci k
    unfold completedTopicsAux
    dsimp only
    rcases lt_trichotomy k (cd - 1) with h | h | h
    · rw [if_pos (by omega), if_pos h, ih cd ci (k + 1)]
    · rw [if_neg (by omega), if_pos (by omega), if_neg (by omega), if_pos h,
        ih cd ci (k + 1)]
    · rw [if_neg (by omega), if_neg (by omega), if_neg (by omega), if_neg (by omega),
        ih cd ci (k + 1)]

/-- The accumulation loop of the source equals the specification's closed
formula: all topics of the days strictly before `current_day` plus
`min(current_topic_index, topics in current day)`. -/
theorem completedTopicsAux_eq_spec :
    ∀ (days : List LessonDay) (cd ci : Int), 1 ≤ cd → cd ≤ (days.length : Int) →
      completedTopicsAux cd ci 1 days = specCompletedTopics cd ci days := by
  intro days
  induction days with
  | nil =>
    intro cd ci h1 h2
    simp only [List.length_nil, Nat.cast_zero] at h2
    omega
  | cons d rest ih =>
    intro cd ci h1 h2
    by_cases hcd : cd = 1
    · subst hcd
      unfold completedTopicsAux
      dsimp only
      rw [if_neg (by omega), if_pos rfl,
        completedTopicsAux_of_lt rest 1 ci (1 + 1) (by omega)]
      unfold specCompletedTopics topicsAtDay
      simp
    · have hge : 2 ≤ cd := by omega
      unfold completedTopicsAux
      dsimp only
      rw [if_pos (by omega)]
      rw [completedTopicsAux_shift rest cd ci 1]
      have hlen : cd - 1 ≤ (rest.length : Int) := by
        simp only [List.length_cons] at h2
        push_cast at h2
        omega
      rw [ih (cd - 1) ci (by omega) hlen]
      unfold specCompletedTopics topicsAtDay
      have htn : (cd - 1).toNat = (cd - 1 - 1).toNat + 1 := by omega
      rw [htn, List.take_succ_cons, List.get?_cons_succ]
      simp only [List.map_cons, List.sum_cons]
      omega

/-- C9: with no lesson plan the progress percentage is 0.0; with a plan whose
current day exists and whose total topic count is non-zero, it equals the
topics of all days strictly before `current_day`, plus
`min(current_topic_index, topics in current day)`, divided by the total
number of topics of the plan, as a percentage rounded to one decimal. -/
theorem progress_percentage_matches_spec (s : LearningSession) :
    (s.lesson_plan = none → calculate_progress_percentage s = 0) ∧
    (∀ p : LessonPlan, s.lesson_plan = some p →
      1 ≤ s.current_day → s.current_day ≤ (p.days.length : Int) →
      (p.days.map (fun d => (d.topics.length : Int))).sum ≠ 0 →
      calculate_progress_percentage s =
        roundTo1
          (((specCompletedTopics s.current_day s.current_topic_index p.days : ℚ) /
            (((p.days.map (fun d => (d.topics.length : Int))).sum : Int) : ℚ)) * 100)) := by
  constructor
  · intro h
    unfold calculate_progress_percentage
    rw [h]
  · intro p hp h1 h2 htot
    have hne : p.days ≠ [] := by
      intro hnil
      rw [hnil] at h2
      simp only [List.length_nil, Nat.cast_zero] at h2
      omega
    unfold calculate_progress_percentage
    rw [hp]
    dsimp only
    rw [if_neg hne, if_neg htot,
      completedTopicsAux_eq_spec p.days s.current_day s.current_topic_index h1 h2]

/-- Witness for C9: the formula applied to the session with no plan and to
the two-day sample session on day 2 with topic index 1. -/
theorem progress_percentage_matches_spec_applied :
    calculate_progress_percentage planningSession = 0 ∧
    calculate_progress_percentage twoSession =
      roundTo1
        (((specCompletedTopics twoSession.current_day twoSession.current_topic_index
              twoPlan.days : ℚ) /
          (((twoPlan.days.map (fun d => (d.topics.length : Int))).sum : Int) : ℚ)) * 100) :=
  ⟨(progress_percentage_matches_spec planningSession).1 rfl,
    (progress_percentage_matches_spec twoSession).2 twoPlan rfl (by decide)
      (by decide) (by decide)⟩

/-- C10 (amended): the classification is deterministic with four outcomes
for non-empty input: inputs shorter than 10 characters (after lowercasing
and stripping) or matching the acknowledgment phrase list classify as
`"acknowledgment"`; otherwise inputs containing an explanation trigger
classify as `"detailed_explanation"`; otherwise inputs containing a
clarification trigger classify as `"explanation"`; anything else is
`"default"`.  Each category maps to a fixed token estimate
(20/400/200/150), and streaming is chosen exactly when the estimate is at or
above the configured threshold, which defaults to 100. -/
theorem response_classification_behaviour :
    (∀ msg : String, msg ≠ "" →
      ((acknowledgment_phrases.contains (stripStr (lowerStr msg)) ∨
          (stripStr (lowerStr msg)).length < 10) →
        classify_expected_response (some msg) = "acknowledgment") ∧
      (¬(acknowledgment_phrases.contains (stripStr (lowerStr msg)) ∨
          (stripStr (lowerStr msg)).length < 10) →
        explanation_triggers.any (fun t => strContains (stripStr (lowerStr msg)) t) = true →
        classify_expected_response (some msg) = "detailed_explanation") ∧
      (¬(acknowledgment_phrases.contains (stripStr (lowerStr msg)) ∨
          (stripStr (lowerStr msg)).length < 10) →
        explanation_triggers.any (fun t => strContains (stripStr (lowerStr msg)) t) = false →
        clarification_triggers.any (fun t => strContains (stripStr (lowerStr msg)) t) = true →
        classify_expected_response (some msg) = "explanation") ∧
      (¬(acknowledgment_phrases.contains (stripStr (lowerStr msg)) ∨
          (stripStr (lowerStr msg)).length < 10) →
        explanation_triggers.any (fun t => strContains (stripStr (lowerStr msg)) t) = false →
        clarification_triggers.any (fun t => strContains (stripStr (lowerStr msg)) t) = false →
        classify_expected_response (some msg) = "default")) ∧
    (estimate_response_tokens "acknowledgment" = 20 ∧
      estimate_response_tokens "detailed_explanation" = 400 ∧
      estimate_response_tokens "explanation" = 200 ∧
      estimate_response_tokens "default" = 150) ∧
    (∀ n : Int, should_stream n = true ↔ STREAMING_TOKEN_THRESHOLD ≤ n) ∧
    STREAMING_TOKEN_THRESHOLD = 100 := by
  refine ⟨?_, ⟨rfl, rfl, rfl, rfl⟩, ?_, rfl⟩
  · intro msg hmsg
    refine ⟨?_, ?_, ?_, ?_⟩
    · intro hack
      unfold classify_expected_response
      dsimp only
      rw [if_neg hmsg]
      rw [if_pos hack]
    · intro hack hexp
      unfold classify_expected_response
      dsimp only
      rw [if_neg hmsg]
      rw [if_neg hack, if_pos hexp]
    · intro hack hexp hcl
      unfold classify_expected_response
      dsimp only
      rw [if_neg hmsg]
      rw [if_neg hack, if_neg (by rw [hexp]; exact Bool.false_ne_true), if_pos hcl]
    · intro hack hexp hcl
      unfold classify_expected_response
      dsimp only
      rw [if_neg hmsg]
      rw [if_neg hack, if_neg (by rw [hexp]; exact Bool.false_ne_true),
        if_neg (by rw [hcl]; exact Bool.false_ne_true)]
  · intro n
    unfold should_stream
    exact decide_eq_true_iff

/-- C10 counterexample: the input "Give me an example" is at least 10
characters, matches no acknowledgment phrase and no explanation trigger, yet
classifies as `"explanation"` (token estimate 200) through the clarification
branch rather than falling to the `"default"` category (token estimate
150). -/
theorem classification_has_clarification_category :
    classify_expected_response (some "Give me an example") = "explanation" ∧
    estimate_response_tokens
        (classify_expected_response (some "Give me an example")) = 200 ∧
    classify_expected_response (some "Give me an example") ≠ "acknowledgment" ∧
    classify_expected_response (some "Give me an example") ≠ "detailed_explanation" ∧
    classify_expected_response (some "Give me an example") ≠ "default" := by
  refine ⟨rfl, rfl, ?_, ?_, ?_⟩ <;> decide

/-- Witness for C10: the classification theorem applied to a short
acknowledgment, an explanation request, a default-category message, and the
streaming rule at 400 expected tokens. -/
theorem response_classification_behaviour_applied :
    classify_expected_response (some "ok") = "acknowledgment" ∧
    classify_expected_response (some "Can you explain recursion") = "detailed_explanation" ∧
    classify_expected_response (some "Please show me more about it") = "default" ∧
    (should_stream 400 = true ↔ STREAMING_TOKEN_THRESHOLD ≤ 400) :=
  ⟨((response_classification_behaviour.1 "ok" (by decide)).1 (by decide)),
    ((response_classification_behaviour.1 "Can you explain recursion"
        (by decide)).2.1 (by decide) (by decide)),
    ((response_classification_behaviour.1 "Please show me more about it"
        (by decide)).2.2.2 (by decide) (by decide) (by decide)),
    response_classification_behaviour.2.2.1 400⟩
